import Mathlib

/- Verification of the resume core of the job-Accessibility repository.

   The embedding below translates, from the source:
   - the Mongoose resume schema and its save-time validation
     (backend/models/Resume.js), and
   - the resume router: CRUD ownership filters, the AI generation endpoint,
     and the `generatePDFContent` rendering helper (the router file stored
     under backend/models/User.js in this snapshot).

   Dates: a JavaScript `Date` is abstracted as a calendar year paired with a
   millisecond offset into that year; comparing epoch milliseconds is then
   the lexicographic order on the pair, and `getFullYear` is the first
   component. -/

namespace ResumeCore

/-- Abstraction of a JavaScript Date value: calendar year plus millisecond
offset within that year. -/
structure JSDate where
  year : Int
  msInYear : Nat
deriving DecidableEq, Repr

/-- JS date comparison `d1 < d2` (epoch-millisecond order, here the
lexicographic order on (year, offset)). -/
def JSDate.ltb (a b : JSDate) : Bool :=
  a.year < b.year || (a.year == b.year && a.msInYear < b.msInYear)

/-- JS `Date.prototype.getFullYear`. -/
def JSDate.getFullYear (d : JSDate) : Int := d.year

/-- Stand-in for JS `Date.prototype.toLocaleDateString`: a concrete, injective
textual rendering of the date value. -/
def JSDate.toLocaleDateString (d : JSDate) : String :=
  toString d.year ++ "/" ++ toString d.msInYear

/- Candidate documents, as handed to `new Resume(...)` before save-time
validation.  Paths the schema marks `required` may still be absent in a
candidate, so they are `Option`-valued here; array paths and paths with a
schema default are materialized by Mongoose, so they are plain values. -/

/-- Candidate `personalInfo` subdocument (Resume.js lines 9-17). -/
structure RawPersonalInfo where
  fullName : Option String := none
  email : Option String := none
  phone : Option String := none
  address : Option String := none
  linkedin : Option String := none
  website : Option String := none
  summary : Option String := none
deriving DecidableEq, Repr

/-- Candidate experience entry (Resume.js lines 18-27). -/
structure RawExperience where
  company : Option String := none
  position : Option String := none
  startDate : Option JSDate := none
  endDate : Option JSDate := none
  current : Bool := false
  description : Option String := none
  achievements : List String := []
  skills : List String := []
deriving DecidableEq, Repr

/-- Candidate education entry (Resume.js lines 28-36). -/
structure RawEducation where
  institution : Option String := none
  degree : Option String := none
  field : Option String := none
  startDate : Option JSDate := none
  endDate : Option JSDate := none
  gpa : Option String := none
  honors : List String := []
deriving DecidableEq, Repr

/-- Candidate skills subdocument (Resume.js lines 37-41). -/
structure RawSkills where
  technical : List String := []
  soft : List String := []
  languages : List String := []
deriving DecidableEq, Repr

/-- Candidate project entry (Resume.js lines 42-49). -/
structure RawProject where
  name : Option String := none
  description : Option String := none
  technologies : List String := []
  link : Option String := none
  startDate : Option JSDate := none
  endDate : Option JSDate := none
deriving DecidableEq, Repr

/-- Candidate certification entry (Resume.js lines 50-56). -/
structure RawCertification where
  name : Option String := none
  issuer : Option String := none
  date : Option JSDate := none
  expiryDate : Option JSDate := none
  link : Option String := none
deriving DecidableEq, Repr

/-- Candidate accessibility subdocument (Resume.js lines 57-61). -/
structure RawAccessibility where
  disabilityType : Option String := none
  accommodations : List String := []
  accessibilityPreferences : List String := []
deriving DecidableEq, Repr

/-- A full candidate resume document.  `template`, `aiGenerated` and
`isActive` carry their schema defaults, already applied at construction. -/
structure RawResume where
  userId : Option Nat := none
  personalInfo : RawPersonalInfo := {}
  experience : List RawExperience := []
  education : List RawEducation := []
  skills : RawSkills := {}
  projects : List RawProject := []
  certifications : List RawCertification := []
  accessibility : RawAccessibility := {}
  template : String := "modern"
  aiGenerated : Bool := false
  aiPrompt : Option String := none
  isActive : Bool := true
deriving DecidableEq, Repr

/- Save-time validation.  Mongoose's required validator for `String` paths
accepts exactly the present strings of nonzero length (no trimming: the
schema sets no `trim` option on any resume path); for `Date` and `ObjectId`
paths it only requires presence.  The `enum` option on `template` restricts
the value to the four listed names.  Validation collects the offending
paths; an empty list means the document saves. -/

/-- Required-`String` path check: absent or empty values are violations. -/
def requiredStringErrors (path : String) : Option String → List String
  | none => [path]
  | some s => if s.length == 0 then [path] else []

/-- Required-`Date` path check: only presence is required. -/
def requiredDateErrors (path : String) : Option JSDate → List String
  | none => [path]
  | some _ => []

/-- Required-`ObjectId` path check (the `userId` reference). -/
def requiredObjectIdErrors (path : String) : Option Nat → List String
  | none => [path]
  | some _ => []

/-- The `enum` list on the `template` path (Resume.js lines 62-66). -/
def templateEnum : List String := ["modern", "classic", "creative", "minimal"]

/-- Enum check on `template`. -/
def templateErrors (t : String) : List String :=
  if templateEnum.contains t then [] else ["template"]

/-- Violations contributed by one experience entry: `company`, `position`
and `startDate` are required; `endDate` and `current` are not validated. -/
def experienceEntryErrors (i : Nat) (e : RawExperience) : List String :=
  requiredStringErrors ("experience." ++ toString i ++ ".company") e.company ++
  requiredStringErrors ("experience." ++ toString i ++ ".position") e.position ++
  requiredDateErrors ("experience." ++ toString i ++ ".startDate") e.startDate

/-- Violations contributed by the experience array, entry by entry. -/
def experienceErrors : Nat → List RawExperience → List String
  | _, [] => []
  | i, e :: es => experienceEntryErrors i e ++ experienceErrors (i + 1) es

/-- Violations contributed by one education entry: `institution`, `degree`
and `startDate` are required. -/
def educationEntryErrors (i : Nat) (e : RawEducation) : List String :=
  requiredStringErrors ("education." ++ toString i ++ ".institution") e.institution ++
  requiredStringErrors ("education." ++ toString i ++ ".degree") e.degree ++
  requiredDateErrors ("education." ++ toString i ++ ".startDate") e.startDate

/-- Violations contributed by the education array. -/
def educationErrors : Nat → List RawEducation → List String
  | _, [] => []
  | i, e :: es => educationEntryErrors i e ++ educationErrors (i + 1) es

/-- Violations contributed by the projects array: only `name` is required. -/
def projectErrors : Nat → List RawProject → List String
  | _, [] => []
  | i, p :: ps =>
    requiredStringErrors ("projects." ++ toString i ++ ".name") p.name ++
    projectErrors (i + 1) ps

/-- Violations contributed by the certifications array: only `name` is
required. -/
def certificationErrors : Nat → List RawCertification → List String
  | _, [] => []
  | i, c :: cs =>
    requiredStringErrors ("certifications." ++ toString i ++ ".name") c.name ++
    certificationErrors (i + 1) cs

/-- Mongoose save-time validation of `resumeSchema`: the list of violated
paths, in schema order.  The document is accepted exactly when the list is
empty.  The schema declares no validator relating `endDate` to `startDate`
on any entry. -/
def validateResume (r : RawResume) : List String :=
  requiredObjectIdErrors "userId" r.userId ++
  requiredStringErrors "personalInfo.fullName" r.personalInfo.fullName ++
  requiredStringErrors "personalInfo.email" r.personalInfo.email ++
  experienceErrors 0 r.experience ++
  educationErrors 0 r.education ++
  projectErrors 0 r.projects ++
  certificationErrors 0 r.certifications ++
  templateErrors r.template

/-- Spec-side predicate (from the claim's words, for comparison with
`validateResume`): every required string path is present and non-empty. -/
def nonEmptyOpt : Option String → Bool
  | none => false
  | some s => s.length != 0

/-- Spec-side predicate: all required string fields of the claim list are
present with nonzero length. -/
def requiredStringsPresent (r : RawResume) : Bool :=
  nonEmptyOpt r.personalInfo.fullName &&
  nonEmptyOpt r.personalInfo.email &&
  r.experience.all (fun e => nonEmptyOpt e.company && nonEmptyOpt e.position) &&
  r.education.all (fun e => nonEmptyOpt e.institution && nonEmptyOpt e.degree) &&
  r.projects.all (fun p => nonEmptyOpt p.name) &&
  r.certifications.all (fun c => nonEmptyOpt c.name)

/- Saved documents, as read back from the store and fed to the renderer.
Required paths are plain values; optional paths stay `Option`-valued. -/

/-- Saved `personalInfo`. -/
structure PersonalInfo where
  fullName : String
  email : String
  phone : Option String := none
  address : Option String := none
  linkedin : Option String := none
  website : Option String := none
  summary : Option String := none
deriving DecidableEq, Repr

/-- Saved experience entry. -/
structure ExperienceEntry where
  company : String
  position : String
  startDate : JSDate
  endDate : Option JSDate := none
  current : Bool := false
  description : Option String := none
  achievements : List String := []
  skills : List String := []
deriving DecidableEq, Repr

/-- Saved education entry. -/
structure EducationEntry where
  institution : String
  degree : String
  field : Option String := none
  startDate : JSDate
  endDate : Option JSDate := none
  gpa : Option String := none
  honors : List String := []
deriving DecidableEq, Repr

/-- Saved skills subdocument: Mongoose materializes the three arrays, so the
subdocument is always an object (and hence always truthy in JS). -/
structure SkillsInfo where
  technical : List String := []
  soft : List String := []
  languages : List String := []
deriving DecidableEq, Repr

/-- Saved project entry. -/
structure ProjectEntry where
  name : String
  description : Option String := none
  technologies : List String := []
  link : Option String := none
  startDate : Option JSDate := none
  endDate : Option JSDate := none
deriving DecidableEq, Repr

/-- Saved certification entry. -/
structure CertificationEntry where
  name : String
  issuer : Option String := none
  date : Option JSDate := none
  expiryDate : Option JSDate := none
  link : Option String := none
deriving DecidableEq, Repr

/-- Saved accessibility subdocument. -/
structure AccessibilityInfo where
  disabilityType : Option String := none
  accommodations : List String := []
  accessibilityPreferences : List String := []
deriving DecidableEq, Repr

/-- A saved resume document. -/
structure Resume where
  userId : Nat
  personalInfo : PersonalInfo
  experience : List ExperienceEntry := []
  education : List EducationEntry := []
  skills : SkillsInfo := {}
  projects : List ProjectEntry := []
  certifications : List CertificationEntry := []
  accessibility : AccessibilityInfo := {}
  template : String := "modern"
  aiGenerated : Bool := false
  aiPrompt : Option String := none
  isActive : Bool := true
deriving DecidableEq, Repr

/- The PDF writer.  `generatePDFContent` drives a pdfkit document through
fontSize/font/text/moveDown calls; we record that call sequence as a list
of operations.  `moveDown` amounts are tenths (the source uses 0.5 and
0.3). -/

/-- One pdfkit call issued by `generatePDFContent`. -/
inductive PdfOp where
  | setFontSize (size : Nat)
  | setFont (fontName : String)
  | text (content : String) (align : Option String)
  | moveDown (tenths : Nat)
deriving DecidableEq, Repr

/-- JS template-literal interpolation of a possibly-undefined value: an
absent value interpolates as the literal text "undefined". -/
def jsDisplay : Option String → String
  | some s => s
  | none => "undefined"

/-- Interpolation of `getFullYear` of a present date. -/
def yearString (d : JSDate) : String := toString d.getFullYear

/-- Interpolation of `new Date(endDate).getFullYear()`: when `endDate` is
absent, `new Date(undefined)` is an invalid date whose year is NaN, which
interpolates as "NaN". -/
def endYearString : Option JSDate → String
  | some d => yearString d
  | none => "NaN"

/-- The experience date line (User.js line 460). -/
def expDateLine (e : ExperienceEntry) : String :=
  yearString e.startDate ++ " - " ++
    (if e.current then "Present" else endYearString e.endDate)

/-- Header block (User.js lines 419-432). -/
def headerOps (p : PersonalInfo) : List PdfOp :=
  [.setFontSize 24, .setFont "Helvetica-Bold", .text p.fullName (some "center"),
   .setFontSize 12, .setFont "Helvetica", .text p.email (some "center")] ++
  (match p.phone with
   | some ph => [.text ph (some "center")]
   | none => []) ++
  [.moveDown 5]

/-- Summary block, emitted only when a summary is present (User.js lines
434-445). -/
def summaryOps (p : PersonalInfo) : List PdfOp :=
  match p.summary with
  | some s =>
    [.setFontSize 14, .setFont "Helvetica-Bold", .text "Professional Summary" none,
     .setFontSize 10, .setFont "Helvetica", .text s none, .moveDown 5]
  | none => []

/-- One experience entry (User.js lines 453-473). -/
def experienceEntryOps (e : ExperienceEntry) : List PdfOp :=
  [.setFontSize 12, .setFont "Helvetica-Bold",
   .text (e.position ++ " at " ++ e.company) none,
   .setFontSize 10, .setFont "Helvetica", .text (expDateLine e) none] ++
  (match e.description with
   | some d => [.text d none]
   | none => []) ++
  e.achievements.map (fun a => .text ("• " ++ a) none) ++
  [.moveDown 3]

/-- Experience section, emitted only when the array is non-empty (User.js
lines 447-474). -/
def experienceSectionOps (es : List ExperienceEntry) : List PdfOp :=
  if es.isEmpty then []
  else
    [.setFontSize 14, .setFont "Helvetica-Bold",
     .text "Professional Experience" none] ++
    es.flatMap experienceEntryOps

/-- One education entry (User.js lines 482-496); an absent `field`
interpolates as "undefined" in the degree line. -/
def educationEntryOps (e : EducationEntry) : List PdfOp :=
  [.setFontSize 12, .setFont "Helvetica-Bold",
   .text (e.degree ++ " in " ++ jsDisplay e.field) none,
   .setFontSize 10, .setFont "Helvetica", .text e.institution none] ++
  (match e.gpa with
   | some g => [.text ("GPA: " ++ g) none]
   | none => []) ++
  [.moveDown 3]

/-- Education section, emitted only when the array is non-empty (User.js
lines 477-497). -/
def educationSectionOps (es : List EducationEntry) : List PdfOp :=
  if es.isEmpty then []
  else
    [.setFontSize 14, .setFont "Helvetica-Bold", .text "Education" none] ++
    es.flatMap educationEntryOps

/-- Skills section (User.js lines 499-520).  The source guards it with
`if (skills)`, which tests object truthiness; the skills subdocument is
always an object, so the guard always holds and the heading and trailing
moveDown run unconditionally, while each sub-category line is guarded by
its own non-emptiness check. -/
def skillsOps (s : SkillsInfo) : List PdfOp :=
  [.setFontSize 14, .setFont "Helvetica-Bold", .text "Skills" none] ++
  (if s.technical.isEmpty then []
   else [.setFontSize 10, .setFont "Helvetica",
         .text ("Technical: " ++ String.intercalate ", " s.technical) none]) ++
  (if s.soft.isEmpty then []
   else [.text ("Soft Skills: " ++ String.intercalate ", " s.soft) none]) ++
  (if s.languages.isEmpty then []
   else [.text ("Languages: " ++ String.intercalate ", " s.languages) none]) ++
  [.moveDown 5]

/-- One project entry (User.js lines 528-544). -/
def projectEntryOps (p : ProjectEntry) : List PdfOp :=
  [.setFontSize 12, .setFont "Helvetica-Bold", .text p.name none] ++
  (match p.description with
   | some d => [.setFontSize 10, .setFont "Helvetica", .text d none]
   | none => []) ++
  (if p.technologies.isEmpty then []
   else [.text ("Technologies: " ++ String.intercalate ", " p.technologies) none]) ++
  [.moveDown 3]

/-- Projects section, emitted only when the array is non-empty (User.js
lines 522-545). -/
def projectsSectionOps (ps : List ProjectEntry) : List PdfOp :=
  if ps.isEmpty then []
  else
    [.setFontSize 14, .setFont "Helvetica-Bold", .text "Projects" none] ++
    ps.flatMap projectEntryOps

/-- One certification entry (User.js lines 553-567): the issuer line is
unconditional (an absent issuer interpolates as "undefined"); the date line
is emitted only when a date is present. -/
def certificationEntryOps (c : CertificationEntry) : List PdfOp :=
  [.setFontSize 12, .setFont "Helvetica-Bold", .text c.name none,
   .setFontSize 10, .setFont "Helvetica",
   .text ("Issued by: " ++ jsDisplay c.issuer) none] ++
  (match c.date with
   | some d => [.text ("Date: " ++ d.toLocaleDateString) none]
   | none => []) ++
  [.moveDown 3]

/-- Certifications section, emitted only when the array is non-empty
(User.js lines 547-568). -/
def certificationsSectionOps (cs : List CertificationEntry) : List PdfOp :=
  if cs.isEmpty then []
  else
    [.setFontSize 14, .setFont "Helvetica-Bold", .text "Certifications" none] ++
    cs.flatMap certificationEntryOps

/-- The full `generatePDFContent` helper (User.js lines 416-569): header,
then the sections in their fixed order.  The resume's `template` field is
never read. -/
def generatePDFContent (r : Resume) : List PdfOp :=
  headerOps r.personalInfo ++
  summaryOps r.personalInfo ++
  experienceSectionOps r.experience ++
  educationSectionOps r.education ++
  skillsOps r.skills ++
  projectsSectionOps r.projects ++
  certificationsSectionOps r.certifications

/-- The text lines of an operation sequence, in emission order. -/
def extractTexts (ops : List PdfOp) : List String :=
  ops.filterMap fun op =>
    match op with
    | .text s _ => some s
    | _ => none

/-- The PDF response of `GET /:id/pdf` (User.js lines 362-379): content
type, attachment filename built from the full name, and the rendered
operation sequence. -/
structure PdfPayload where
  contentType : String
  filename : String
  ops : List PdfOp
deriving DecidableEq, Repr

/-- Rendering plus emission for one resume, as the PDF route performs it. -/
def pdfEmit (r : Resume) : PdfPayload :=
  { contentType := "application/pdf"
    filename := r.personalInfo.fullName ++ "_Resume.pdf"
    ops := generatePDFContent r }

/- The single-resume routes.  A stored collection is a list of saved
documents, each with its MongoDB `_id`; `findOne` is `List.find?` on the
route's filter, and `findOneAndUpdate` replaces the first match. -/

/-- A resume document as stored in the collection, keyed by its `_id`. -/
structure StoredResume where
  _id : Nat
  doc : Resume
deriving DecidableEq, Repr

/-- A route response (the shapes the resume router produces). -/
inductive ApiResponse where
  | okResume (status : Nat) (data : StoredResume)
  | okMessage (status : Nat) (message : String)
  | okPdf (status : Nat) (payload : PdfPayload)
  | apiError (status : Nat) (message : String)
deriving DecidableEq, Repr

/-- The filter `{ _id, userId: req.user.id, isActive: true }` used by
`GET /:id`, `PUT /:id` and `GET /:id/pdf`. -/
def ownedActiveFilter (uid rid : Nat) (s : StoredResume) : Bool :=
  s._id == rid && s.doc.userId == uid && s.doc.isActive

/-- The filter `{ _id, userId: req.user.id }` used by `DELETE /:id`. -/
def ownedFilter (uid rid : Nat) (s : StoredResume) : Bool :=
  s._id == rid && s.doc.userId == uid

/-- `findOneAndUpdate(filter, update, { new: true })`: the first matching
document is replaced by its update and returned; the rest of the
collection is untouched. -/
def findOneAndUpdate (filt : StoredResume → Bool)
    (upd : StoredResume → StoredResume) :
    List StoredResume → Option StoredResume × List StoredResume
  | [] => (none, [])
  | s :: rest =>
    if filt s then (some (upd s), upd s :: rest)
    else
      let r := findOneAndUpdate filt upd rest
      (r.1, s :: r.2)

/-- `GET /:id` (User.js lines 164-189): find by id, owner and active flag;
404 "Resume not found" when there is no match. -/
def getResumeRoute (store : List StoredResume) (uid rid : Nat) : ApiResponse :=
  match store.find? (ownedActiveFilter uid rid) with
  | none => .apiError 404 "Resume not found"
  | some s => .okResume 200 s

/-- `PUT /:id` (User.js lines 192-217): `findOneAndUpdate` on the owned
active filter, applying the request body to the matched document;
404 "Resume not found" when there is no match.  Returns the response
together with the resulting collection. -/
def updateResumeRoute (store : List StoredResume) (uid rid : Nat)
    (body : Resume → Resume) : ApiResponse × List StoredResume :=
  let r := findOneAndUpdate (ownedActiveFilter uid rid)
    (fun s => { s with doc := body s.doc }) store
  match r.1 with
  | none => (.apiError 404 "Resume not found", r.2)
  | some s => (.okResume 200 s, r.2)

/-- `DELETE /:id` (User.js lines 220-245): soft delete via
`findOneAndUpdate` on the owned filter, clearing `isActive`;
404 "Resume not found" when there is no match. -/
def deleteResumeRoute (store : List StoredResume) (uid rid : Nat) :
    ApiResponse × List StoredResume :=
  let r := findOneAndUpdate (ownedFilter uid rid)
    (fun s => { s with doc := { s.doc with isActive := false } }) store
  match r.1 with
  | none => (.apiError 404 "Resume not found", r.2)
  | some _ => (.okMessage 200 "Resume deleted successfully", r.2)

/-- `GET /:id/pdf` (User.js lines 347-387): find by id, owner and active
flag; on a match, emit the rendered document. -/
def pdfResumeRoute (store : List StoredResume) (uid rid : Nat) : ApiResponse :=
  match store.find? (ownedActiveFilter uid rid) with
  | none => .apiError 404 "Resume not found"
  | some s => .okPdf 200 (pdfEmit s.doc)

/- The AI generation endpoint `POST /generate` (User.js lines 248-344).
The request body carries an optional prompt and an optional template (the
destructuring default is "modern").  The prompt gate rejects a falsy
prompt before any provider interaction; otherwise the fixed instructional
prompt embedding the user text is sent to the provider, the raw response
text is parsed as JSON, and on success a resume candidate is constructed
from the parsed data. -/

/-- The body of a generation request. -/
structure GenerateRequest where
  prompt : Option String
  template : Option String
deriving DecidableEq, Repr

/-- JS truthiness of the destructured `prompt` value: present and
non-empty. -/
def jsTruthyString : Option String → Bool
  | none => false
  | some s => s != ""

/-- The inner instructional prompt (User.js lines 260-272), with the user
text embedded verbatim. -/
def aiPromptText (prompt : String) : String :=
  "Create a professional resume based on the following information. \n" ++
  "    Format it as a structured JSON object with the following sections:\n" ++
  "    - personalInfo (fullName, email, phone, summary)\n" ++
  "    - experience (array of work experiences)\n" ++
  "    - education (array of educational background)\n" ++
  "    - skills (technical, soft, languages)\n" ++
  "    - projects (array of relevant projects)\n" ++
  "    - certifications (array of certifications)\n" ++
  "    \n" ++
  "    User input: " ++ prompt ++ "\n" ++
  "    \n" ++
  "    Make it professional, concise, and tailored for job applications. \n" ++
  "    Focus on achievements and measurable results."

/-- The full prompt sent to the provider (User.js lines 276-302),
wrapping the instructional prompt with the target JSON skeleton. -/
def geminiPromptText (prompt : String) : String :=
  "You are a professional resume writer. Generate structured resume data in JSON format.\n\n" ++
  aiPromptText prompt ++
  "\n\nPlease create a professional resume with the following structure:\n" ++
  "\x7b\n" ++
  "  \"personalInfo\": \x7b\n" ++
  "    \"fullName\": \"string\",\n" ++
  "    \"email\": \"string\",\n" ++
  "    \"phone\": \"string\",\n" ++
  "    \"summary\": \"string\"\n" ++
  "  \x7d,\n" ++
  "  \"experience\": [\n" ++
  "    \x7b\n" ++
  "      \"company\": \"string\",\n" ++
  "      \"position\": \"string\",\n" ++
  "      \"startDate\": \"string\",\n" ++
  "      \"description\": \"string\"\n" ++
  "    \x7d\n" ++
  "  ],\n" ++
  "  \"skills\": \x7b\n" ++
  "    \"technical\": [\"string\"],\n" ++
  "    \"soft\": [\"string\"]\n" ++
  "  \x7d\n" ++
  "\x7d\n\n" ++
  "Make it professional, concise, and tailored for job applications. Focus on achievements and measurable results. Return only valid JSON."

/-- Outcome of the prompt gate: either the 400 rejection, or the provider
call carrying the exact prompt text sent out. -/
inductive GenerateStep where
  | rejected (status : Nat) (message : String)
  | providerCall (promptSent : String)
deriving DecidableEq, Repr

/-- The prompt gate (User.js lines 250-257): a falsy prompt is rejected
with 400 before the provider is contacted; otherwise the provider is
called with the constructed prompt. -/
def generatePromptGate (body : GenerateRequest) : GenerateStep :=
  if jsTruthyString body.prompt then
    .providerCall (geminiPromptText (body.prompt.getD ""))
  else
    .rejected 400 "Prompt is required for AI generation"

/-- The spread `{ ...aiGeneratedData, userId, template, aiGenerated: true,
aiPrompt: prompt }` (User.js lines 319-325). -/
def applyGeneratedData (data : RawResume) (uid : Nat) (template : String)
    (prompt : String) : RawResume :=
  { data with
    userId := some uid
    template := template
    aiGenerated := true
    aiPrompt := some prompt }

/-- Outcome of the generation endpoint (up to persistence of the
constructed candidate). -/
inductive GenerateOutcome where
  | rejected (status : Nat) (message : String)
  | parseFailure (status : Nat) (message : String)
  | created (status : Nat) (resume : RawResume)
deriving DecidableEq, Repr

/-- The JSON-parse step and candidate construction (User.js lines 304-334):
a response text that does not parse yields the 500 parse failure and no
resume is constructed; otherwise the candidate is built from the parsed
data.  `parseJson` stands for `JSON.parse` followed by document
construction from the parsed object. -/
def generateFromContent (parseJson : String → Option RawResume)
    (content : String) (uid : Nat) (template : String) (prompt : String) :
    GenerateOutcome :=
  match parseJson content with
  | none => .parseFailure 500 "Failed to parse AI response"
  | some data => .created 201 (applyGeneratedData data uid template prompt)

/-- The whole generation endpoint: prompt gate, provider call, parse and
construction.  `provider` stands for the generative model call (prompt
text in, raw response text out). -/
def generateRoute (provider : String → String)
    (parseJson : String → Option RawResume) (uid : Nat)
    (body : GenerateRequest) : GenerateOutcome :=
  match generatePromptGate body with
  | .rejected s m => .rejected s m
  | .providerCall sent =>
    generateFromContent parseJson (provider sent) uid
      (body.template.getD "modern") (body.prompt.getD "")

/- Concrete documents used as evaluation inputs below. -/

/-- An experience entry that is not current and whose end date strictly
precedes its start date. -/
def c1Exp : RawExperience :=
  { company := some "Acme"
    position := some "Engineer"
    startDate := some ⟨2022, 0⟩
    endDate := some ⟨2020, 0⟩
    current := false }

/-- An otherwise fully valid candidate carrying the backdated entry. -/
def c1Doc : RawResume :=
  { userId := some 1
    personalInfo := { fullName := some "Jane Doe", email := some "jane@example.com" }
    experience := [c1Exp] }

/-- A saved resume whose every optional section is empty, including all
three skills sub-categories. -/
def c2Resume : Resume :=
  { userId := 1
    personalInfo := { fullName := "Jane Doe", email := "jane@example.com" } }

/-- A candidate whose required `fullName` is whitespace-only. -/
def c5Doc : RawResume :=
  { userId := some 1
    personalInfo := { fullName := some " ", email := some "jane@example.com" } }

/-- A fully valid candidate with entries in every required-string section. -/
def c5ValidDoc : RawResume :=
  { userId := some 2
    personalInfo := { fullName := some "John Roe", email := some "john@example.com" }
    experience := [{ company := some "Acme"
                     position := some "Engineer"
                     startDate := some ⟨2021, 0⟩ }]
    education := [{ institution := some "State University"
                    degree := some "BSc"
                    startDate := some ⟨2017, 0⟩ }]
    projects := [{ name := some "Portfolio site" }]
    certifications := [{ name := some "Cert A" }] }

/-- A saved resume owned by user 1. -/
def demoResume : Resume :=
  { userId := 1
    personalInfo := { fullName := "Jane Doe", email := "jane@example.com" } }

/-- A one-document collection holding user 1's resume under id 7. -/
def demoStore : List StoredResume := [{ _id := 7, doc := demoResume }]

/- Theorems. -/

/-- Claim C1 counterexample: the candidate `c1Doc` carries an experience
entry with `current = false` whose end date (year 2020) strictly precedes
its start date (year 2022), yet save-time validation reports no violation
at all — the entry is silently accepted, not rejected with an error citing
the date field. -/
theorem backdatedExperienceAccepted :
    c1Doc.experience = [c1Exp] ∧
    c1Exp.current = false ∧
    c1Exp.endDate = some ⟨2020, 0⟩ ∧
    c1Exp.startDate = some ⟨2022, 0⟩ ∧
    JSDate.ltb ⟨2020, 0⟩ ⟨2022, 0⟩ = true ∧
    validateResume c1Doc = [] := by
  refine ⟨rfl, rfl, rfl, rfl, by decide, by decide⟩

/-- Claim C1 (amended): save-time validation performs no comparison between
`endDate` and `startDate` — its result is independent of every experience
`endDate` value, so an entry with `current = false` and `endDate` earlier
than `startDate` is accepted exactly when the rest of the document is
valid; no validation error ever cites the date ordering. -/
theorem validateResume_endDate_independent (r : RawResume)
    (f : Option JSDate → Option JSDate) :
    validateResume
        { r with experience :=
            r.experience.map fun e => { e with endDate := f e.endDate } } =
      validateResume r := by
  have h : ∀ (i : Nat) (es : List RawExperience),
      experienceErrors i (es.map fun e => { e with endDate := f e.endDate }) =
        experienceErrors i es := by
    intro i es
    induction es generalizing i with
    | nil => rfl
    | cons e es ih => simp [experienceErrors, experienceEntryErrors, ih]
  simp [validateResume, h]

/-- Claim C2 evaluation at the failing input: on a resume whose skills
sub-categories are all empty, the rendered text stream still ends with the
bare "Skills" heading, with no content under it — the `if (skills)` guard
tests object truthiness instead of content emptiness. -/
theorem skillsHeadingEmittedEmpty :
    c2Resume.skills.technical = [] ∧
    c2Resume.skills.soft = [] ∧
    c2Resume.skills.languages = [] ∧
    extractTexts (generatePDFContent c2Resume) =
      ["Jane Doe", "jane@example.com", "Skills"] := by
  refine ⟨rfl, rfl, rfl, by decide⟩

/-- A required string path passes validation only when the value is present
with nonzero length. -/
theorem requiredStringErrors_eq_nil (path : String) (o : Option String)
    (h : requiredStringErrors path o = []) : nonEmptyOpt o = true := by
  cases o with
  | none => simp [requiredStringErrors] at h
  | some s =>
    simp only [requiredStringErrors, ite_eq_right_iff] at h
    simp only [nonEmptyOpt, ne_eq, bne_iff_ne]
    intro hs
    exact absurd (h (by simp [hs])) (by simp)

/-- If the experience array contributes no violation, every entry's
`company` and `position` are present and non-empty. -/
theorem experienceErrors_all (i : Nat) (es : List RawExperience)
    (h : experienceErrors i es = []) :
    es.all (fun e => nonEmptyOpt e.company && nonEmptyOpt e.position) = true := by
  induction es generalizing i with
  | nil => rfl
  | cons e es ih =>
    simp only [experienceErrors, experienceEntryErrors, List.append_eq_nil] at h
    obtain ⟨⟨⟨h1, h2⟩, _⟩, h4⟩ := h
    simp [List.all_cons, requiredStringErrors_eq_nil _ _ h1,
      requiredStringErrors_eq_nil _ _ h2, ih _ h4]

/-- If the education array contributes no violation, every entry's
`institution` and `degree` are present and non-empty. -/
theorem educationErrors_all (i : Nat) (es : List RawEducation)
    (h : educationErrors i es = []) :
    es.all (fun e => nonEmptyOpt e.institution && nonEmptyOpt e.degree) = true := by
  induction es generalizing i with
  | nil => rfl
  | cons e es ih =>
    simp only [educationErrors, educationEntryErrors, List.append_eq_nil] at h
    obtain ⟨⟨⟨h1, h2⟩, _⟩, h4⟩ := h
    simp [List.all_cons, requiredStringErrors_eq_nil _ _ h1,
      requiredStringErrors_eq_nil _ _ h2, ih _ h4]

/-- If the projects array contributes no violation, every entry's `name`
is present and non-empty. -/
theorem projectErrors_all (i : Nat) (ps : List RawProject)
    (h : projectErrors i ps = []) :
    ps.all (fun p => nonEmptyOpt p.name) = true := by
  induction ps generalizing i with
  | nil => rfl
  | cons p ps ih =>
    simp only [projectErrors, List.append_eq_nil] at h
    obtain ⟨h1, h2⟩ := h
    simp [List.all_cons, requiredStringErrors_eq_nil _ _ h1, ih _ h2]

/-- If the certifications array contributes no violation, every entry's
`name` is present and non-empty. -/
theorem certificationErrors_all (i : Nat) (cs : List RawCertification)
    (h : certificationErrors i cs = []) :
    cs.all (fun c => nonEmptyOpt c.name) = true := by
  induction cs generalizing i with
  | nil => rfl
  | cons c cs ih =>
    simp only [certificationErrors, List.append_eq_nil] at h
    obtain ⟨h1, h2⟩ := h
    simp [List.all_cons, requiredStringErrors_eq_nil _ _ h1, ih _ h2]

/-- Claim C5 counterexample: a candidate whose `personalInfo.fullName` is
the whitespace-only string " " passes validation, although that value is
empty after trimming — the required check tests nonzero length only and
applies no trimming. -/
theorem whitespaceFullNameAccepted :
    c5Doc.personalInfo.fullName = some " " ∧
    (" ").toList.all Char.isWhitespace = true ∧
    validateResume c5Doc = [] := by
  refine ⟨rfl, by decide, by decide⟩

/-- Claim C5 (amended): every candidate accepted by validation has every
required string field (`personalInfo.fullName`, `personalInfo.email`,
experience `company`/`position`, education `institution`/`degree`, project
`name`, certification `name`) present with nonzero length; empty strings
are rejected, but no trimming is applied, so whitespace-only values are
accepted. -/
theorem validateResume_required_nonempty (r : RawResume)
    (h : validateResume r = []) : requiredStringsPresent r = true := by
  simp only [validateResume, List.append_eq_nil] at h
  obtain ⟨⟨⟨⟨⟨⟨⟨_, h2⟩, h3⟩, h4⟩, h5⟩, h6⟩, h7⟩, _⟩ := h
  simp [requiredStringsPresent, requiredStringErrors_eq_nil _ _ h2,
    requiredStringErrors_eq_nil _ _ h3, experienceErrors_all _ _ h4,
    educationErrors_all _ _ h5, projectErrors_all _ _ h6,
    certificationErrors_all _ _ h7]

/-- Witness for the amended C5 theorem at a concrete fully valid
candidate. -/
theorem validateResume_required_nonempty_witness :
    validateResume c5ValidDoc = [] ∧
    requiredStringsPresent c5ValidDoc = true :=
  ⟨by decide, validateResume_required_nonempty c5ValidDoc (by decide)⟩

/-- Claim C3: a generation request whose prompt is missing or empty is
rejected by the gate with status 400 and "Prompt is required for AI
generation", and the whole endpoint returns that rejection for every
provider and parser — the provider is never consulted; a request with a
non-empty prompt reaches the provider call carrying the constructed
prompt. -/
theorem promptGateBehaviour (body : GenerateRequest)
    (provider : String → String) (parseJson : String → Option RawResume)
    (uid : Nat) :
    ((body.prompt = none ∨ body.prompt = some "") →
      generatePromptGate body =
          .rejected 400 "Prompt is required for AI generation" ∧
        generateRoute provider parseJson uid body =
          .rejected 400 "Prompt is required for AI generation") ∧
    (∀ s, body.prompt = some s → s ≠ "" →
      generatePromptGate body = .providerCall (geminiPromptText s)) := by
  constructor
  · intro h
    have hg : generatePromptGate body =
        .rejected 400 "Prompt is required for AI generation" := by
      rcases h with h | h <;> simp [generatePromptGate, jsTruthyString, h]
    exact ⟨hg, by simp [generateRoute, hg]⟩
  · intro s hs hne
    simp [generatePromptGate, jsTruthyString, hs, hne]

/-- Witness for C3 at concrete requests: a missing prompt is rejected, a
non-empty prompt produces the provider call. -/
theorem promptGateBehaviour_witness :
    generatePromptGate ⟨none, none⟩ =
      .rejected 400 "Prompt is required for AI generation" ∧
    generatePromptGate ⟨some "Frontend engineer", some "modern"⟩ =
      .providerCall (geminiPromptText "Frontend engineer") :=
  ⟨((promptGateBehaviour ⟨none, none⟩ (fun s => s) (fun _ => none) 1).1
      (Or.inl rfl)).1,
   (promptGateBehaviour ⟨some "Frontend engineer", some "modern"⟩
      (fun s => s) (fun _ => none) 1).2 "Frontend engineer" rfl (by decide)⟩

/-- Claim C4: when the provider's response text does not parse as JSON, the
generation endpoint returns the 500 "Failed to parse AI response" failure
and its outcome is never a constructed resume. -/
theorem parseFailureNoResume (provider : String → String)
    (parseJson : String → Option RawResume) (uid : Nat)
    (body : GenerateRequest) (s : String) (st : Nat) (r : RawResume)
    (hp : body.prompt = some s) (hne : s ≠ "")
    (h : parseJson (provider (geminiPromptText s)) = none) :
    generateRoute provider parseJson uid body =
      .parseFailure 500 "Failed to parse AI response" ∧
    generateRoute provider parseJson uid body ≠ .created st r := by
  have hg : generatePromptGate body = .providerCall (geminiPromptText s) := by
    simp [generatePromptGate, jsTruthyString, hp, hne]
  refine ⟨?_, ?_⟩ <;> simp [generateRoute, hg, generateFromContent, h]

/-- Witness for C4 at a concrete request against a provider that answers
with non-JSON text. -/
theorem parseFailureNoResume_witness :
    generateRoute (fun _ => "I am not JSON") (fun _ => none) 1
        ⟨some "Frontend engineer", some "modern"⟩ =
      .parseFailure 500 "Failed to parse AI response" ∧
    generateRoute (fun _ => "I am not JSON") (fun _ => none) 1
        ⟨some "Frontend engineer", some "modern"⟩ ≠ .created 201 {} :=
  parseFailureNoResume (fun _ => "I am not JSON") (fun _ => none) 1
    ⟨some "Frontend engineer", some "modern"⟩ "Frontend engineer" 201 {}
    rfl (by decide) rfl

/-- Claim C6: every rendered experience block starts with the line
"{position} at {company}" followed by the date line; for a non-current
entry the date line is "{startYear} - {endYear}", and for a current entry
it is "{startYear} - Present" whatever the stored `endDate` is. -/
theorem experienceBlockFormat (e : ExperienceEntry) (d : Option JSDate) :
    (extractTexts (experienceEntryOps e)).take 2 =
      [e.position ++ " at " ++ e.company, expDateLine e] ∧
    (e.current = false →
      expDateLine e =
        yearString e.startDate ++ " - " ++ endYearString e.endDate) ∧
    (e.current = true →
      expDateLine { e with endDate := d } =
        yearString e.startDate ++ " - Present") := by
  refine ⟨?_, ?_, ?_⟩
  · simp [extractTexts, experienceEntryOps]
  · intro h; simp [expDateLine, h]
  · intro h
    have hp : (" - " ++ "Present" : String) = " - Present" := by decide
    simp [expDateLine, h, String.append_assoc, hp]

/-- Witness for C6 at a concrete current entry that also stores an end
date: the block reads "Frontend Engineer at Acme" then "2021 - Present". -/
theorem experienceBlockFormat_witness :
    expDateLine
        { company := "Acme", position := "Frontend Engineer",
          startDate := ⟨2021, 0⟩, endDate := some ⟨2023, 0⟩,
          current := true } =
      "2021 - Present" ∧
    (extractTexts (experienceEntryOps
        { company := "Acme", position := "Frontend Engineer",
          startDate := ⟨2021, 0⟩, endDate := some ⟨2023, 0⟩,
          current := true })).take 2 =
      ["Frontend Engineer at Acme", "2021 - Present"] := by
  have h := experienceBlockFormat
    { company := "Acme", position := "Frontend Engineer",
      startDate := ⟨2021, 0⟩, endDate := some ⟨2023, 0⟩, current := true }
    (some ⟨2023, 0⟩)
  refine ⟨(h.2.2 rfl).trans (by decide), h.1.trans (by decide)⟩

/-- Claim C7: the rendered operation sequence and the emitted payload are
unchanged under any change of the resume's template id — the template
never influences section selection, ordering or text content. -/
theorem renderTemplateIndependent (r : Resume) (t : String) :
    generatePDFContent { r with template := t } = generatePDFContent r ∧
    pdfEmit { r with template := t } = pdfEmit r :=
  ⟨rfl, rfl⟩

/-- Claim C8: rendering plus emission is a function of the resume value:
two invocations on the same validated input produce identical operation
sequences and payloads. -/
theorem renderDeterministic (r₁ r₂ : Resume) (h : r₁ = r₂) :
    generatePDFContent r₁ = generatePDFContent r₂ ∧
    pdfEmit r₁ = pdfEmit r₂ := by
  subst h; exact ⟨rfl, rfl⟩

/-- Witness for C8: two runs on one concrete resume agree. -/
theorem renderDeterministic_witness :
    generatePDFContent
        { userId := 1
          personalInfo := { fullName := "Jane Doe", email := "jane@example.com" } } =
      generatePDFContent
        { userId := 1
          personalInfo := { fullName := "Jane Doe", email := "jane@example.com" } } ∧
    pdfEmit
        { userId := 1
          personalInfo := { fullName := "Jane Doe", email := "jane@example.com" } } =
      pdfEmit
        { userId := 1
          personalInfo := { fullName := "Jane Doe", email := "jane@example.com" } } :=
  renderDeterministic _ _ rfl

/-- `findOneAndUpdate` on a filter no stored document satisfies returns no
document and leaves the collection unchanged. -/
theorem findOneAndUpdate_no_match (filt : StoredResume → Bool)
    (upd : StoredResume → StoredResume) (store : List StoredResume)
    (h : ∀ s ∈ store, filt s = false) :
    findOneAndUpdate filt upd store = (none, store) := by
  induction store with
  | nil => rfl
  | cons s rest ih =>
    have hs := h s (List.mem_cons_self s rest)
    have hr := ih fun x hx => h x (List.mem_cons_of_mem s hx)
    simp [findOneAndUpdate, hs, hr]

/-- Claim C9: all four single-resume routes filter by both the resume id
and the requesting user's id, so when the stored document with that id
belongs to a different user, read, update, delete and PDF emission all
answer 404 "Resume not found", and update and delete leave the collection
untouched — another user's resume is never returned, modified or
emitted. -/
theorem ownershipIsolation (store : List StoredResume) (uid rid : Nat)
    (body : Resume → Resume)
    (h : ∀ s ∈ store, s._id = rid → s.doc.userId ≠ uid) :
    getResumeRoute store uid rid = .apiError 404 "Resume not found" ∧
    updateResumeRoute store uid rid body =
      (.apiError 404 "Resume not found", store) ∧
    deleteResumeRoute store uid rid =
      (.apiError 404 "Resume not found", store) ∧
    pdfResumeRoute store uid rid = .apiError 404 "Resume not found" := by
  have hOwned : ∀ s ∈ store, ownedFilter uid rid s = false := by
    intro s hs
    by_cases hid : s._id = rid
    · simp [ownedFilter, hid, h s hs hid]
    · simp [ownedFilter, hid]
  have hActive : ∀ s ∈ store, ownedActiveFilter uid rid s = false := by
    intro s hs
    by_cases hid : s._id = rid
    · simp [ownedActiveFilter, hid, h s hs hid]
    · simp [ownedActiveFilter, hid]
  have hfind : store.find? (ownedActiveFilter uid rid) = none :=
    List.find?_eq_none.mpr fun x hx => by simp [hActive x hx]
  have hupd := findOneAndUpdate_no_match (ownedActiveFilter uid rid)
    (fun s => { s with doc := body s.doc }) store hActive
  have hdel := findOneAndUpdate_no_match (ownedFilter uid rid)
    (fun s => { s with doc := { s.doc with isActive := false } }) store hOwned
  refine ⟨?_, ?_, ?_, ?_⟩
  · simp [getResumeRoute, hfind]
  · simp [updateResumeRoute, hupd]
  · simp [deleteResumeRoute, hdel]
  · simp [pdfResumeRoute, hfind]

/-- Witness for C9: user 2 requesting user 1's resume (id 7) gets 404 from
every route and the collection is unchanged. -/
theorem ownershipIsolation_witness :
    getResumeRoute demoStore 2 7 = .apiError 404 "Resume not found" ∧
    updateResumeRoute demoStore 2 7 (fun d => d) =
      (.apiError 404 "Resume not found", demoStore) ∧
    deleteResumeRoute demoStore 2 7 =
      (.apiError 404 "Resume not found", demoStore) ∧
    pdfResumeRoute demoStore 2 7 = .apiError 404 "Resume not found" :=
  ownershipIsolation demoStore 2 7 (fun d => d) (by decide)

/-- Claim C10: a rendered certification entry always carries the line
"Issued by: {issuer}" — when the optional issuer is absent, the
interpolation yields the literal "Issued by: undefined" — while the date
line appears exactly when a date is present. -/
theorem certificationIssuerLine (c : CertificationEntry) :
    extractTexts (certificationEntryOps c) =
      [c.name, "Issued by: " ++ jsDisplay c.issuer] ++
        (match c.date with
         | some d => ["Date: " ++ d.toLocaleDateString]
         | none => []) ∧
    jsDisplay none = "undefined" := by
  refine ⟨?_, rfl⟩
  cases hd : c.date <;> simp [extractTexts, certificationEntryOps, hd]

end ResumeCore
